import Mathlib

/-! The viz command root (viz/cmd/root.go)

A shallow embedding of the functions of `viz/cmd/root.go`:

* `exitOnError`, the observer handed to `RunChecks`, as a transformer of the
  process state (what has been written to standard error, and whether
  `os.Exit` has been called);
* `checkForViz`, as the list of category identifiers it builds;
* `PersistentPreRunE` of the `viz` command, with the regular expression
  `alphaNumDash` interpreted by a small matcher.
-/

namespace Viz

/-! ## Data model -/

/-- The type `healthcheck.CategoryID`, a string type. -/
abbrev CategoryID := String

/-- The three category constants named in `root.go`. They are declared in the
packages `pkg/healthcheck` and `viz/pkg/healthcheck`, whose sources are not
part of `root.go`, so their values are parameters of the embedding. -/
structure CategoryConsts where
  KubernetesAPIChecks : CategoryID
  LinkerdControlPlaneExistenceChecks : CategoryID
  LinkerdVizExtensionCheck : CategoryID
deriving DecidableEq, Repr

/-- The three constants are pairwise different. The expression switch of
`exitOnError` lists the three constants as cases, and the Go compiler refuses
an expression switch with two equal constant cases. -/
def CategoryConsts.Distinct (ids : CategoryConsts) : Prop :=
  ids.KubernetesAPIChecks ≠ ids.LinkerdControlPlaneExistenceChecks ∧
  ids.KubernetesAPIChecks ≠ ids.LinkerdVizExtensionCheck ∧
  ids.LinkerdControlPlaneExistenceChecks ≠ ids.LinkerdVizExtensionCheck

instance (ids : CategoryConsts) : Decidable ids.Distinct := by
  unfold CategoryConsts.Distinct
  infer_instance

/-- A concrete choice of the three constants, used to evaluate the embedding
on examples. -/
def sampleIDs : CategoryConsts where
  KubernetesAPIChecks := "kubernetes-api"
  LinkerdControlPlaneExistenceChecks := "linkerd-existence"
  LinkerdVizExtensionCheck := "linkerd-viz"

/-- Modelled from the spec: the values of the three category constants
`healthcheck.KubernetesAPIChecks`, `healthcheck.LinkerdControlPlaneExistenceChecks`
and `vizHealthCheck.LinkerdVizExtensionCheck`. Their declarations are in the
packages `pkg/healthcheck` and `viz/pkg/healthcheck`, not in `root.go`. The
spec (section 8) names the three categories, in this order, "cluster",
"control-plane" and "extension", the first being the one whose failure is
reported as "Cannot connect to Kubernetes". -/
def categoryIDs : CategoryConsts where
  KubernetesAPIChecks := "cluster"
  LinkerdControlPlaneExistenceChecks := "control-plane"
  LinkerdVizExtensionCheck := "extension"

/-- The fields of `healthcheck.CheckResult` that `root.go` reads. `Err` holds
the text of the error (what `%s` prints), `none` standing for a nil error. -/
structure CheckResult where
  Category : CategoryID
  Retry : Bool
  Warning : Bool
  Err : Option String
deriving DecidableEq, Repr

/-- The part of the process state that `exitOnError` acts on: the bytes written
to standard error so far, and the exit code once `os.Exit` has been called
(`none` while the process is running). -/
structure Process where
  stderr : String
  exitCode : Option Nat
deriving DecidableEq, Repr

/-- A running process that has written `s` to standard error. -/
def Process.running (s : String) : Process := ⟨s, none⟩

/-- Appends `s` to standard error. -/
def Process.write (p : Process) (s : String) : Process :=
  { p with stderr := p.stderr ++ s }

/-- The call `fmt.Fprintln(os.Stderr, s)`: `s` and a newline. -/
def Fprintln (p : Process) (s : String) : Process :=
  p.write (s ++ "\n")

/-- The call `os.Exit(code)`. -/
def osExit (p : Process) (code : Nat) : Process :=
  { p with exitCode := some code }

/-- The exit code the operating system sees: the code given to `os.Exit`, or 0
when the program runs to its end. -/
def Process.status (p : Process) : Nat := p.exitCode.getD 0

/-! ## exitOnError -/

/-- The expression switch of `exitOnError` over `result.Category`: the cases
are tried in order, and `msg` keeps its zero value, the empty string, when no
case applies (the switch has no default case). -/
def msg (ids : CategoryConsts) (category : CategoryID) : String :=
  if category = ids.KubernetesAPIChecks then "Cannot connect to Kubernetes"
  else if category = ids.LinkerdControlPlaneExistenceChecks then "Cannot find Linkerd"
  else if category = ids.LinkerdVizExtensionCheck then "Cannot find viz extension"
  else ""

/-- The local `checkCmd` of `exitOnError`. -/
def checkCmd : String := "linkerd viz check"

/-- The function `exitOnError` of `root.go`. -/
def exitOnError (ids : CategoryConsts) (result : CheckResult) (p : Process) : Process :=
  if result.Retry then
    Fprintln p "Waiting for viz to become available"
  else
    match result.Err with
    | some err =>
      if !result.Warning then
        let p1 := p.write (msg ids result.Category ++ ": " ++ err ++ "\n")
        let p2 := p1.write ("Validate linkerd-viz install with: " ++ checkCmd ++ "\n")
        osExit p2 1
      else p
    | none => p

/-- A fatal result: `Retry` is false, `Err` is not nil and `Warning` is false. -/
def CheckResult.isFatal (r : CheckResult) : Bool :=
  !r.Retry && r.Err.isSome && !r.Warning

/-- A warning result: `Retry` is false, `Err` is not nil and `Warning` is true. -/
def CheckResult.isWarning (r : CheckResult) : Bool :=
  !r.Retry && r.Err.isSome && r.Warning

/-- A success result: `Retry` is false and `Err` is nil. -/
def CheckResult.isSuccess (r : CheckResult) : Bool :=
  !r.Retry && r.Err.isNone

/-- A fatal result of the first category. -/
def refused : CheckResult := ⟨"kubernetes-api", false, false, some "connection refused"⟩

/-- A fatal result whose category is none of the three constants. -/
def unknownFatal : CheckResult := ⟨"foo", false, false, some "boom"⟩

/-- A warning result. -/
def lowDisk : CheckResult := ⟨"linkerd-viz", false, true, some "low disk"⟩

/-- A retry result that also carries an error that is not a warning. -/
def notYet : CheckResult := ⟨"linkerd-viz", true, false, some "not ready"⟩

/-- A success result. -/
def passed : CheckResult := ⟨"linkerd-viz", false, false, none⟩

/-- The string `s` begins with `t`. -/
def beginsWith (s t : String) : Bool := t.data.isPrefixOf s.data

/-! ## checkForViz and the delivery of results -/

/-- The local `checks` of `checkForViz`: the category identifiers handed to
`healthcheck.NewHealthChecker`. The type of the options is declared outside
`root.go` and is a parameter. -/
def checks {Options : Type} (ids : CategoryConsts) (_hcOptions : Options) : List CategoryID :=
  [ids.KubernetesAPIChecks, ids.LinkerdControlPlaneExistenceChecks, ids.LinkerdVizExtensionCheck]

/-- Modelled from the spec: the delivery of results by `HealthChecker.RunChecks`
(package `pkg/healthcheck`, not part of `root.go`). The results are handed to
the observer one at a time, in order and synchronously, and nothing is handed
over once the observer has ended the process. The first component is the list
of the results that were handed to the observer. -/
def RunChecks (observer : CheckResult → Process → Process) :
    List CheckResult → Process → List CheckResult × Process
  | [], p => ([], p)
  | r :: rs, p =>
    let p1 := observer r p
    match p1.exitCode with
    | some _ => ([r], p1)
    | none =>
      let out := RunChecks observer rs p1
      (r :: out.1, out.2)

/-- What a result that does not end the process adds to standard error. -/
def notice (r : CheckResult) : String :=
  if r.Retry then "Waiting for viz to become available\n" else ""

/-! ## The regular expression alphaNumDash -/

/-- The operators of Go regular expressions that `alphaNumDash` uses. -/
inductive Regexp where
  | beginText
  | endText
  | charClass (ranges : List (Char × Char))
  | plus (sub : Regexp)
  | concat (a b : Regexp)
deriving Repr

/-- A position in the text under match: whether it is the beginning of the
text, and the characters that remain. -/
structure Pos where
  atBegin : Bool
  rest : List Char
deriving DecidableEq, Repr

/-- The character `c` lies in one of the ranges of a character class. -/
def inClass (ranges : List (Char × Char)) (c : Char) : Bool :=
  ranges.any fun r => decide (r.1.toNat ≤ c.toNat) && decide (c.toNat ≤ r.2.toNat)

/-- One or more matches of `step` in a row. A further round starts only from a
position that lies strictly further in the text, so `fuel` above the number of
remaining characters is never used up. -/
def plusLoop (step : Pos → List Pos) : Nat → Pos → List Pos
  | 0, _ => []
  | fuel + 1, q =>
    (step q).flatMap fun q1 =>
      q1 :: (if q1.rest.length < q.rest.length then plusLoop step fuel q1 else [])

/-- The positions at which a match of the expression that starts at `q` can end. -/
def Regexp.ends : Regexp → Pos → List Pos
  | .beginText, q => if q.atBegin then [q] else []
  | .endText, q => if q.rest.isEmpty then [q] else []
  | .charClass ranges, q =>
    match q.rest with
    | c :: cs => if inClass ranges c then [⟨false, cs⟩] else []
    | [] => []
  | .plus sub, q => plusLoop sub.ends (q.rest.length + 1) q
  | .concat a b, q => (a.ends q).flatMap b.ends

/-- The positions of a text at which a match may start. -/
def starts : Bool → List Char → List Pos
  | b, [] => [⟨b, []⟩]
  | b, c :: cs => ⟨b, c :: cs⟩ :: starts false cs

/-- The method `MatchString`: the text contains a match of the expression. -/
def Regexp.MatchString (re : Regexp) (s : String) : Bool :=
  (starts true s.data).any fun q => !(re.ends q).isEmpty

/-- The expression `^[a-zA-Z0-9-]+$`. -/
def alphaNumDash : Regexp :=
  .concat .beginText
    (.concat (.plus (.charClass [('a', 'z'), ('A', 'Z'), ('0', '9'), ('-', '-')])) .endText)

/-! ## PersistentPreRunE -/

/-- The two log levels that `PersistentPreRunE` sets. -/
inductive Level where
  | PanicLevel
  | DebugLevel
deriving DecidableEq, Repr

/-- The function `PersistentPreRunE` of the `viz` command, over the package
variables `verbose` and `controlPlaneNamespace`: the log level it sets, and
the returned error (`none` for nil). -/
def PersistentPreRunE (verbose : Bool) (controlPlaneNamespace : String) :
    Level × Option String :=
  let level := if verbose then Level.DebugLevel else Level.PanicLevel
  if !alphaNumDash.MatchString controlPlaneNamespace then
    (level, some (controlPlaneNamespace ++ " is not a valid namespace"))
  else
    (level, none)

/-- The default of the flag `linkerd-namespace`. -/
def defaultLinkerdNamespace : String := "linkerd"

end Viz

/-! Theorems -/

namespace Viz

/-! ## Auxiliary facts on exitOnError -/

theorem exitOnError_of_retry (ids : CategoryConsts) (r : CheckResult) (p : Process)
    (hr : r.Retry = true) :
    exitOnError ids r p = ⟨p.stderr ++ "Waiting for viz to become available\n", p.exitCode⟩ := by
  simp [exitOnError, hr, Fprintln, Process.write]

theorem exitOnError_of_fatal (ids : CategoryConsts) (r : CheckResult) (err : String)
    (p : Process) (hr : r.Retry = false) (he : r.Err = some err) (hw : r.Warning = false) :
    exitOnError ids r p =
      ⟨p.stderr ++ (msg ids r.Category ++ ": " ++ err ++ "\n")
        ++ "Validate linkerd-viz install with: linkerd viz check\n", some 1⟩ := by
  simp [exitOnError, hr, he, hw, osExit, Process.write, checkCmd]

theorem exitOnError_of_nil (ids : CategoryConsts) (r : CheckResult) (p : Process)
    (hr : r.Retry = false) (he : r.Err = none) : exitOnError ids r p = p := by
  simp [exitOnError, hr, he]

theorem exitOnError_of_warning (ids : CategoryConsts) (r : CheckResult) (p : Process)
    (hr : r.Retry = false) (hw : r.Warning = true) : exitOnError ids r p = p := by
  cases he : r.Err <;> simp [exitOnError, hr, he, hw]

theorem exitOnError_of_not_fatal (ids : CategoryConsts) (r : CheckResult) (p : Process)
    (h : r.isFatal = false) :
    exitOnError ids r p = ⟨p.stderr ++ notice r, p.exitCode⟩ := by
  cases hr : r.Retry
  · have hq : exitOnError ids r p = p := by
      cases he : r.Err
      · exact exitOnError_of_nil ids r p hr he
      · cases hw : r.Warning
        · simp [CheckResult.isFatal, hr, he, hw] at h
        · exact exitOnError_of_warning ids r p hr hw
    simp [hq, notice, hr]
  · simp [exitOnError_of_retry ids r p hr, notice, hr]

/-! ## Auxiliary facts on the delivery of results -/

theorem join_replicate_succ (n : Nat) (s : String) :
    String.join (List.replicate (n + 1) s) = s ++ String.join (List.replicate n s) := by
  apply String.ext
  simp [String.join_eq, List.replicate_succ]

theorem join_replicate_zero (s : String) : String.join (List.replicate 0 s) = "" := by
  rfl

theorem stderr_notice (r : CheckResult) (rs : List CheckResult) (t : String) :
    t ++ notice r
        ++ String.join (List.replicate (rs.countP (fun x => x.Retry))
            "Waiting for viz to become available\n") =
      t ++ String.join (List.replicate ((r :: rs).countP (fun x => x.Retry))
            "Waiting for viz to become available\n") := by
  cases hr : r.Retry
  · simp [notice, hr, List.countP_cons]
  · simp [notice, hr, List.countP_cons, join_replicate_succ, String.append_assoc]

theorem RunChecks_not_fatal_append (ids : CategoryConsts) (pre rest : List CheckResult) :
    ∀ p : Process, p.exitCode = none → (∀ r ∈ pre, r.isFatal = false) →
    RunChecks (exitOnError ids) (pre ++ rest) p =
      (pre ++ (RunChecks (exitOnError ids) rest
          ⟨p.stderr ++ String.join (List.replicate (pre.countP (fun x => x.Retry))
            "Waiting for viz to become available\n"), none⟩).1,
        (RunChecks (exitOnError ids) rest
          ⟨p.stderr ++ String.join (List.replicate (pre.countP (fun x => x.Retry))
            "Waiting for viz to become available\n"), none⟩).2) := by
  induction pre with
  | nil =>
    intro p hp _
    obtain ⟨t, e⟩ := p
    simp only at hp
    subst hp
    have hj : String.join [] = "" := rfl
    simp [hj]
  | cons r pre ih =>
    intro p hp hpre
    have hr : r.isFatal = false := hpre r (List.mem_cons_self _ _)
    have hrest : ∀ x ∈ pre, x.isFatal = false := fun x hx => hpre x (List.mem_cons_of_mem _ hx)
    have hstep : exitOnError ids r p = ⟨p.stderr ++ notice r, none⟩ := by
      rw [exitOnError_of_not_fatal ids r p hr, hp]
    have key := ih ⟨p.stderr ++ notice r, none⟩ rfl hrest
    simp only [stderr_notice] at key
    simp only [List.cons_append, RunChecks, hstep, List.append_eq, key]

end Viz

namespace Viz

/-! ## The exit policy of exitOnError -/

/-- C1: `exitOnError` ends the process if and only if the result is fatal
(`Retry` false, `Err` not nil, `Warning` false); when it ends the process the
exit code is 1, and in every other case the process keeps running, so that a
run that reaches its end has status 0. -/
theorem exitOnError_exits_iff_fatal (ids : CategoryConsts) (r : CheckResult) (p : Process)
    (hp : p.exitCode = none) :
    ((exitOnError ids r p).exitCode ≠ none ↔
        (r.Retry = false ∧ r.Err ≠ none ∧ r.Warning = false)) ∧
    ((exitOnError ids r p).exitCode ≠ none →
        (exitOnError ids r p).exitCode = some 1 ∧ (exitOnError ids r p).status = 1) ∧
    (¬ (r.Retry = false ∧ r.Err ≠ none ∧ r.Warning = false) →
        (exitOnError ids r p).exitCode = none ∧ (exitOnError ids r p).status = 0) := by
  by_cases hf : r.isFatal = true
  · have hr : r.Retry = false := by
      cases h : r.Retry <;> simp [CheckResult.isFatal, h] at hf ⊢
    have hw : r.Warning = false := by
      cases h : r.Warning <;> simp [CheckResult.isFatal, h] at hf ⊢
    obtain ⟨err, he⟩ : ∃ err, r.Err = some err := by
      cases h : r.Err
      · simp [CheckResult.isFatal, h] at hf
      · exact ⟨_, rfl⟩
    rw [exitOnError_of_fatal ids r err p hr he hw]
    simp [hr, he, hw, Process.status]
  · have hf2 : r.isFatal = false := by simpa using hf
    have hn : ¬ (r.Retry = false ∧ r.Err ≠ none ∧ r.Warning = false) := by
      rintro ⟨h1, h2, h3⟩
      cases he : r.Err
      · exact h2 he
      · simp [CheckResult.isFatal, h1, he, h3] at hf
    rw [exitOnError_of_not_fatal ids r p hf2]
    simp [hp, hn, Process.status]

/-- Witness of C1: a fatal result of the first category ends a running process
with exit code 1. -/
theorem exitOnError_exits_iff_fatal_witness :
    (Process.running "").exitCode = none ∧
    (exitOnError sampleIDs refused (Process.running "")).exitCode = some 1 ∧
    (exitOnError sampleIDs refused (Process.running "")).status = 1 :=
  ⟨rfl, (exitOnError_exits_iff_fatal sampleIDs refused (Process.running "") rfl).2.1
    (by decide)⟩

/-! ## The messages of exitOnError -/

/-- C2: for a fatal result whose category is one of the three categories of
`checkForViz`, the first thing `exitOnError` writes is the line
`<cause>: <error>` where the cause is fixed by the category: "Cannot connect
to Kubernetes", "Cannot find Linkerd" and "Cannot find viz extension"; the
three causes are not empty and pairwise different. -/
theorem exitOnError_known_category (ids : CategoryConsts) (hd : ids.Distinct)
    (r : CheckResult) (err : String) (p : Process)
    (hr : r.Retry = false) (he : r.Err = some err) (hw : r.Warning = false)
    (hc : r.Category ∈ checks ids ()) :
    (∃ rest, (exitOnError ids r p).stderr =
        p.stderr ++ (msg ids r.Category ++ ": " ++ err ++ "\n") ++ rest) ∧
    (r.Category = ids.KubernetesAPIChecks →
        msg ids r.Category = "Cannot connect to Kubernetes") ∧
    (r.Category = ids.LinkerdControlPlaneExistenceChecks →
        msg ids r.Category = "Cannot find Linkerd") ∧
    (r.Category = ids.LinkerdVizExtensionCheck →
        msg ids r.Category = "Cannot find viz extension") ∧
    msg ids r.Category ≠ "" ∧
    msg ids ids.KubernetesAPIChecks ≠ msg ids ids.LinkerdControlPlaneExistenceChecks ∧
    msg ids ids.KubernetesAPIChecks ≠ msg ids ids.LinkerdVizExtensionCheck ∧
    msg ids ids.LinkerdControlPlaneExistenceChecks ≠ msg ids ids.LinkerdVizExtensionCheck := by
  obtain ⟨h1, h2, h3⟩ := hd
  have mK : msg ids ids.KubernetesAPIChecks = "Cannot connect to Kubernetes" := by
    simp [msg]
  have mL : msg ids ids.LinkerdControlPlaneExistenceChecks = "Cannot find Linkerd" := by
    simp [msg, Ne.symm h1]
  have mV : msg ids ids.LinkerdVizExtensionCheck = "Cannot find viz extension" := by
    simp [msg, Ne.symm h2, Ne.symm h3]
  refine ⟨⟨_, by rw [exitOnError_of_fatal ids r err p hr he hw]⟩, ?_, ?_, ?_, ?_, ?_, ?_, ?_⟩
  · intro h; rw [h, mK]
  · intro h; rw [h, mL]
  · intro h; rw [h, mV]
  · simp only [checks, List.mem_cons, List.mem_singleton, List.not_mem_nil, or_false] at hc
    rcases hc with h | h | h
    · rw [h, mK]; decide
    · rw [h, mL]; decide
    · rw [h, mV]; decide
  · rw [mK, mL]; decide
  · rw [mK, mV]; decide
  · rw [mL, mV]; decide

/-- Witness of C2: the first category with the error "connection refused". -/
theorem exitOnError_known_category_witness :
    sampleIDs.Distinct ∧ refused.Category ∈ checks sampleIDs () ∧
    ∃ rest, (exitOnError sampleIDs refused (Process.running "")).stderr =
      "" ++ ("Cannot connect to Kubernetes" ++ ": " ++ "connection refused" ++ "\n") ++ rest :=
  ⟨by decide, by decide,
    (exitOnError_known_category sampleIDs (by decide) refused "connection refused"
      (Process.running "") rfl rfl rfl (by decide)).1⟩

/-- C3, as the code has it: for a fatal result whose category is none of the
three constants, `exitOnError` still runs to `os.Exit(1)`; the cause is the
empty string, so the first line is `: <error>`, and the category identifier
is not printed. -/
theorem exitOnError_unknown_category (ids : CategoryConsts)
    (r : CheckResult) (err : String) (p : Process)
    (hr : r.Retry = false) (he : r.Err = some err) (hw : r.Warning = false)
    (hc : r.Category ∉ checks ids ()) :
    msg ids r.Category = "" ∧
    exitOnError ids r p =
      ⟨p.stderr ++ (": " ++ err ++ "\n")
        ++ "Validate linkerd-viz install with: linkerd viz check\n", some 1⟩ := by
  simp only [checks, List.mem_cons, List.mem_singleton, List.not_mem_nil, or_false,
    not_or] at hc
  have hm : msg ids r.Category = "" := by simp [msg, hc.1, hc.2.1, hc.2.2]
  refine ⟨hm, ?_⟩
  rw [exitOnError_of_fatal ids r err p hr he hw, hm]
  simp

/-- Witness of C3 as amended: the category "foo". -/
theorem exitOnError_unknown_category_witness :
    unknownFatal.Category ∉ checks sampleIDs () ∧
    exitOnError sampleIDs unknownFatal (Process.running "") =
      ⟨"" ++ (": " ++ "boom" ++ "\n")
        ++ "Validate linkerd-viz install with: linkerd viz check\n", some 1⟩ :=
  ⟨by decide,
    (exitOnError_unknown_category sampleIDs unknownFatal "boom" (Process.running "")
      rfl rfl rfl (by decide)).2⟩

/-- Counterexample to C3 as stated: for the fatal result of category "foo" with
error "boom" the output is ": boom" and the hint; it does not begin with
"foo: boom". -/
theorem exitOnError_unknown_category_counterexample :
    unknownFatal.isFatal = true ∧ unknownFatal.Category ∉ checks sampleIDs () ∧
    (exitOnError sampleIDs unknownFatal (Process.running "")).stderr =
      ": boom\nValidate linkerd-viz install with: linkerd viz check\n" ∧
    beginsWith (exitOnError sampleIDs unknownFatal (Process.running "")).stderr
      (unknownFatal.Category ++ ": " ++ "boom") = false := by
  decide

/-- C4, as the code has it: for a warning result (`Retry` false, `Err` not nil,
`Warning` true) `exitOnError` writes nothing and returns without ending the
process: the process state is unchanged. -/
theorem exitOnError_warning_silent (ids : CategoryConsts) (r : CheckResult) (p : Process)
    (hr : r.Retry = false) (_he : r.Err ≠ none) (hw : r.Warning = true) :
    exitOnError ids r p = p :=
  exitOnError_of_warning ids r p hr hw

/-- Witness of C4 as amended: the warning "low disk". -/
theorem exitOnError_warning_silent_witness :
    lowDisk.Retry = false ∧ lowDisk.Err ≠ none ∧ lowDisk.Warning = true ∧
    exitOnError sampleIDs lowDisk (Process.running "") = Process.running "" :=
  ⟨rfl, by decide, rfl,
    exitOnError_warning_silent sampleIDs lowDisk (Process.running "") rfl (by decide) rfl⟩

/-- Counterexample to C4 as stated: for the warning "low disk" nothing is
written, so the output is not the message and a newline. -/
theorem exitOnError_warning_counterexample :
    lowDisk.isWarning = true ∧
    (exitOnError sampleIDs lowDisk (Process.running "")).stderr = "" ∧
    (exitOnError sampleIDs lowDisk (Process.running "")).stderr ≠ "low disk" ++ "\n" := by
  decide

/-- C5: for a result whose `Retry` flag is set, whatever the other fields hold,
`exitOnError` writes the one line "Waiting for viz to become available" and
returns; the exit state of the process is untouched, so a retry result that
carries an error is not treated as fatal. -/
theorem exitOnError_retry (ids : CategoryConsts) (r : CheckResult) (p : Process)
    (hr : r.Retry = true) :
    (exitOnError ids r p).stderr = p.stderr ++ "Waiting for viz to become available\n" ∧
    (exitOnError ids r p).exitCode = p.exitCode := by
  rw [exitOnError_of_retry ids r p hr]
  exact ⟨rfl, rfl⟩

/-- Witness of C5: a retry result with an error that is not a warning. -/
theorem exitOnError_retry_witness :
    notYet.Retry = true ∧ notYet.Err ≠ none ∧ notYet.Warning = false ∧
    (exitOnError sampleIDs notYet (Process.running "")).stderr =
      "" ++ "Waiting for viz to become available\n" ∧
    (exitOnError sampleIDs notYet (Process.running "")).exitCode = none :=
  ⟨rfl, by decide, rfl, exitOnError_retry sampleIDs notYet (Process.running "") rfl⟩

/-- C6, as the code has it: for a fatal result `exitOnError` appends exactly two
lines to standard error, `<cause>: <error>` and then
"Validate linkerd-viz install with: linkerd viz check", where the cause is
the value of `msg` and the command is `checkCmd`. -/
theorem exitOnError_fatal_output (ids : CategoryConsts) (r : CheckResult) (err : String)
    (p : Process) (hr : r.Retry = false) (he : r.Err = some err) (hw : r.Warning = false) :
    (exitOnError ids r p).stderr =
      p.stderr ++ (msg ids r.Category ++ ": " ++ err ++ "\n")
        ++ ("Validate linkerd-viz install with: " ++ checkCmd ++ "\n") ∧
    checkCmd = "linkerd viz check" := by
  rw [exitOnError_of_fatal ids r err p hr he hw]
  exact ⟨rfl, rfl⟩

/-- Witness of C6 as amended: the first category with "connection refused". -/
theorem exitOnError_fatal_output_witness :
    refused.Retry = false ∧ refused.Err = some "connection refused" ∧
    refused.Warning = false ∧
    (exitOnError sampleIDs refused (Process.running "")).stderr =
      "" ++ (msg sampleIDs refused.Category ++ ": " ++ "connection refused" ++ "\n")
        ++ ("Validate linkerd-viz install with: " ++ checkCmd ++ "\n") :=
  ⟨rfl, rfl, rfl,
    (exitOnError_fatal_output sampleIDs refused "connection refused" (Process.running "")
      rfl rfl rfl).1⟩

/-- Counterexample to C6 as stated: for the first category with the error
"connection refused" the second line is not
"Validate install with: linkerd viz check". -/
theorem exitOnError_fatal_output_counterexample :
    refused.isFatal = true ∧
    (exitOnError sampleIDs refused (Process.running "")).stderr ≠
      ("Cannot connect to Kubernetes" ++ ": " ++ "connection refused" ++ "\n")
        ++ ("Validate install with: " ++ "linkerd viz check" ++ "\n") ∧
    (exitOnError sampleIDs refused (Process.running "")).stderr =
      "Cannot connect to Kubernetes: connection refused\n"
        ++ "Validate linkerd-viz install with: linkerd viz check\n" := by
  decide

/-! ## Runs of results -/

/-- C7: when a sequence of results is delivered in order to `exitOnError`, the
delivery stops at the first fatal result: the results handed over are those
before it and the fatal result itself, none of those after it; the process
ends with exit code 1, and the output is the notices of the earlier retry
results, then one classified message and one hint, those of the first fatal
result, whatever follows it in the sequence. -/
theorem RunChecks_stops_at_first_fatal (ids : CategoryConsts)
    (pre post : List CheckResult) (f : CheckResult) (err : String) (p : Process)
    (hp : p.exitCode = none) (hpre : ∀ r ∈ pre, r.isFatal = false)
    (hf : f.isFatal = true) (he : f.Err = some err) :
    (RunChecks (exitOnError ids) (pre ++ f :: post) p).1 = pre ++ [f] ∧
    (RunChecks (exitOnError ids) (pre ++ f :: post) p).2.exitCode = some 1 ∧
    (RunChecks (exitOnError ids) (pre ++ f :: post) p).2.stderr =
      p.stderr
        ++ String.join (List.replicate (pre.countP (fun x => x.Retry))
            "Waiting for viz to become available\n")
        ++ (msg ids f.Category ++ ": " ++ err ++ "\n")
        ++ "Validate linkerd-viz install with: linkerd viz check\n" := by
  have hr : f.Retry = false := by
    cases h : f.Retry <;> simp [CheckResult.isFatal, h] at hf ⊢
  have hw : f.Warning = false := by
    cases h : f.Warning <;> simp [CheckResult.isFatal, h] at hf ⊢
  rw [RunChecks_not_fatal_append ids pre (f :: post) p hp hpre]
  simp only [RunChecks, exitOnError_of_fatal ids f err _ hr he hw, String.append_assoc,
    List.append_nil, and_self]

/-- Witness of C7: a retry, a warning and a success, then a fatal result,
then a second fatal result and a success. -/
theorem RunChecks_stops_at_first_fatal_witness :
    (Process.running "").exitCode = none ∧
    (∀ r ∈ [notYet, lowDisk, passed], r.isFatal = false) ∧
    refused.isFatal = true ∧ refused.Err = some "connection refused" ∧
    (RunChecks (exitOnError sampleIDs)
        ([notYet, lowDisk, passed] ++ refused :: [unknownFatal, passed])
        (Process.running "")).1 = [notYet, lowDisk, passed] ++ [refused] ∧
    (RunChecks (exitOnError sampleIDs)
        ([notYet, lowDisk, passed] ++ refused :: [unknownFatal, passed])
        (Process.running "")).2.exitCode = some 1 ∧
    (RunChecks (exitOnError sampleIDs)
        ([notYet, lowDisk, passed] ++ refused :: [unknownFatal, passed])
        (Process.running "")).2.stderr =
      (Process.running "").stderr
        ++ String.join (List.replicate ([notYet, lowDisk, passed].countP (fun x => x.Retry))
            "Waiting for viz to become available\n")
        ++ (msg sampleIDs refused.Category ++ ": " ++ "connection refused" ++ "\n")
        ++ "Validate linkerd-viz install with: linkerd viz check\n" :=
  ⟨rfl, by decide, by decide, rfl,
    RunChecks_stops_at_first_fatal sampleIDs [notYet, lowDisk, passed] [unknownFatal, passed]
      refused "connection refused" (Process.running "") rfl (by decide) (by decide) rfl⟩

/-- C8: for a sequence made only of success and retry results (the empty
sequence included), the delivery to `exitOnError` hands over every result and
ends with the process still running, so the status is 0; the output is one
"Waiting for viz to become available" line for each retry result and nothing
else. A sequence of successes prints nothing, and `n` retry results followed
by a success print `n` notices. -/
theorem RunChecks_success_retry (ids : CategoryConsts) (rs : List CheckResult) (p : Process)
    (hp : p.exitCode = none) (h : ∀ r ∈ rs, r.Retry = true ∨ r.isSuccess = true) :
    (RunChecks (exitOnError ids) rs p).1 = rs ∧
    (RunChecks (exitOnError ids) rs p).2.exitCode = none ∧
    (RunChecks (exitOnError ids) rs p).2.status = 0 ∧
    (RunChecks (exitOnError ids) rs p).2.stderr =
      p.stderr ++ String.join (List.replicate (rs.countP (fun x => x.Retry))
        "Waiting for viz to become available\n") ∧
    ((∀ r ∈ rs, r.isSuccess = true) → (RunChecks (exitOnError ids) rs p).2.stderr = p.stderr) ∧
    (∀ (retries : List CheckResult) (s : CheckResult), rs = retries ++ [s] →
      (∀ r ∈ retries, r.Retry = true) → s.isSuccess = true →
      (RunChecks (exitOnError ids) rs p).2.stderr =
        p.stderr ++ String.join (List.replicate retries.length
          "Waiting for viz to become available\n")) := by
  have hnf : ∀ r ∈ rs, r.isFatal = false := by
    intro r hr
    rcases h r hr with h1 | h1
    · simp [CheckResult.isFatal, h1]
    · cases hR : r.Retry <;> cases hE : r.Err <;>
        simp [CheckResult.isFatal, CheckResult.isSuccess, hR, hE] at h1 ⊢
  have key := RunChecks_not_fatal_append ids rs [] p hp hnf
  simp only [List.append_nil, RunChecks] at key
  rw [key]
  refine ⟨rfl, rfl, rfl, rfl, ?_, ?_⟩
  · intro hs
    have hc : rs.countP (fun x => x.Retry) = 0 := by
      rw [List.countP_eq_zero]
      intro r hr
      have := hs r hr
      cases hR : r.Retry <;> simp [CheckResult.isSuccess, hR] at this ⊢
    rw [hc, join_replicate_zero, String.append_empty]
  · intro retries s hrs hret hs
    have hsR : s.Retry = false := by
      cases hR : s.Retry <;> simp [CheckResult.isSuccess, hR] at hs ⊢
    have hc : rs.countP (fun x => x.Retry) = retries.length := by
      rw [hrs, List.countP_append, List.countP_eq_length.2 (by simpa using hret)]
      simp [hsR]
    simp only [hc]

/-- Witness of C8: two retry results followed by a success print two notices. -/
theorem RunChecks_success_retry_witness :
    (Process.running "").exitCode = none ∧
    (∀ r ∈ [notYet, notYet, passed], r.Retry = true ∨ r.isSuccess = true) ∧
    (RunChecks (exitOnError sampleIDs) [notYet, notYet, passed] (Process.running "")).2.status = 0 ∧
    (RunChecks (exitOnError sampleIDs) [notYet, notYet, passed] (Process.running "")).2.stderr =
      (Process.running "").stderr ++ String.join (List.replicate [notYet, notYet].length
        "Waiting for viz to become available\n") :=
  ⟨rfl, by decide,
    (RunChecks_success_retry sampleIDs [notYet, notYet, passed] (Process.running "") rfl
      (by decide)).2.2.1,
    (RunChecks_success_retry sampleIDs [notYet, notYet, passed] (Process.running "") rfl
      (by decide)).2.2.2.2.2 [notYet, notYet] passed rfl (by decide) rfl⟩

/-! ## The categories of checkForViz -/

/-- C9: `checkForViz` hands three category identifiers to the health checker,
in the order `KubernetesAPIChecks`, `LinkerdControlPlaneExistenceChecks`,
`LinkerdVizExtensionCheck`, whatever the options are, and each of them has a
cause in `exitOnError` that is not empty; this holds for every value of the
three constants. With the constants as the spec names them the list is
"cluster", "control-plane", "extension" and has no duplicate; for arbitrary
values the list has no duplicate exactly when the three constants are
pairwise different. -/
theorem checkForViz_checks {Options : Type} (ids : CategoryConsts) (o o2 : Options) :
    checks ids o = [ids.KubernetesAPIChecks, ids.LinkerdControlPlaneExistenceChecks,
      ids.LinkerdVizExtensionCheck] ∧
    (checks ids o).length = 3 ∧
    checks ids o = checks ids o2 ∧
    (∀ c ∈ checks ids o, msg ids c ≠ "") ∧
    checks categoryIDs o = ["cluster", "control-plane", "extension"] ∧
    (checks categoryIDs o).Nodup ∧
    (∀ c ∈ checks categoryIDs o, msg categoryIDs c ≠ "") ∧
    ((checks ids o).Nodup ↔ ids.Distinct) := by
  have hcause : ∀ (k : CategoryConsts) (c : CategoryID), c ∈ checks k o → msg k c ≠ "" := by
    intro k c hc
    simp only [checks, List.mem_cons, List.mem_singleton, List.not_mem_nil, or_false] at hc
    simp only [msg]
    rcases hc with h | h | h <;> subst h <;> split_ifs <;>
      first
        | decide
        | simp_all
  refine ⟨rfl, rfl, rfl, hcause ids, rfl, ?_, hcause categoryIDs, ?_⟩
  · have hl : checks categoryIDs o = ["cluster", "control-plane", "extension"] := rfl
    rw [hl]
    decide
  · simp only [checks, CategoryConsts.Distinct, List.nodup_cons, List.mem_cons,
      List.mem_singleton, List.not_mem_nil, List.nodup_nil, not_or, not_false_eq_true,
      and_true, and_assoc]

/-! ## The namespace check of PersistentPreRunE -/

theorem inClass_alphaNumDash (c : Char) :
    inClass [('a', 'z'), ('A', 'Z'), ('0', '9'), ('-', '-')] c = true ↔
      (c.isAlpha = true ∨ c.isDigit = true ∨ c = '-') := by
  have h45 : c = '-' ↔ c.toNat = 45 := by
    constructor
    · rintro rfl; rfl
    · intro h
      apply Char.ext
      apply UInt32.ext
      simpa [Char.toNat] using h
  simp only [inClass, List.any_cons, List.any_nil, Bool.or_false, Bool.or_eq_true,
    Bool.and_eq_true, decide_eq_true_eq, Char.isAlpha, Char.isUpper, Char.isLower, Char.isDigit,
    h45, ge_iff_le, UInt32.le_def, Char.toNat]
  simp only [BitVec.le_def]
  have e1 : 'a'.val.toNat = 97 := rfl
  have e2 : 'z'.val.toNat = 122 := rfl
  have e3 : 'A'.val.toNat = 65 := rfl
  have e4 : 'Z'.val.toNat = 90 := rfl
  have e5 : '0'.val.toNat = 48 := rfl
  have e6 : '9'.val.toNat = 57 := rfl
  have e7 : '-'.val.toNat = 45 := rfl
  have e8 : (UInt32.toBitVec 65).toNat = 65 := rfl
  have e9 : (UInt32.toBitVec 90).toNat = 90 := rfl
  have e10 : (UInt32.toBitVec 97).toNat = 97 := rfl
  have e11 : (UInt32.toBitVec 122).toNat = 122 := rfl
  have e12 : (UInt32.toBitVec 48).toNat = 48 := rfl
  have e13 : (UInt32.toBitVec 57).toNat = 57 := rfl
  have e14 : ∀ u : UInt32, u.toBitVec.toNat = u.toNat := fun _ => rfl
  simp only [e1, e2, e3, e4, e5, e6, e7, e8, e9, e10, e11, e12, e13, e14]
  omega


theorem plusLoop_charClass_reaches_end (ranges : List (Char × Char)) (rest : List Char) :
    ∀ (b : Bool) (fuel : Nat), rest.length ≤ fuel →
      ((plusLoop (Regexp.charClass ranges).ends fuel ⟨b, rest⟩).any
          (fun q => q.rest.isEmpty) = true ↔
        rest ≠ [] ∧ ∀ c ∈ rest, inClass ranges c = true) := by
  induction rest with
  | nil =>
    intro b fuel _
    cases fuel <;> simp [plusLoop, Regexp.ends]
  | cons c cs ih =>
    intro b fuel hfuel
    cases fuel with
    | zero => simp at hfuel
    | succ f =>
      have hf : cs.length ≤ f := by simpa using hfuel
      have hstep : (Regexp.charClass ranges).ends ⟨b, c :: cs⟩ =
          if inClass ranges c = true then [⟨false, cs⟩] else [] := rfl
      rw [plusLoop, hstep]
      by_cases hc : inClass ranges c = true
      · have hrec := ih false f hf
        simp only [hc, if_true, List.flatMap_cons, List.flatMap_nil, List.append_nil,
          List.length_cons, Nat.lt_succ_self, List.any_cons, Bool.or_eq_true, hrec]
        cases cs <;> simp [hc]
      · simp [hc]

theorem starts_false_atBegin (l : List Char) : ∀ q ∈ starts false l, q.atBegin = false := by
  induction l with
  | nil => simp [starts]
  | cons c cs ih =>
    intro q hq
    simp only [starts, List.mem_cons] at hq
    rcases hq with rfl | hq
    · rfl
    · exact ih q hq

theorem endText_after (l : List Pos) :
    (!(l.flatMap fun q2 => if q2.rest.isEmpty = true then [q2] else []).isEmpty) = true ↔
      l.any (fun q => q.rest.isEmpty) = true := by
  induction l with
  | nil => simp
  | cons a l ih =>
    cases ha : a.rest.isEmpty <;> simp_all [List.flatMap_cons]

theorem alphaNumDash_ends (q : Pos) :
    (!(alphaNumDash.ends q).isEmpty) = true ↔
      q.atBegin = true ∧ q.rest ≠ [] ∧
        ∀ c ∈ q.rest, inClass [('a', 'z'), ('A', 'Z'), ('0', '9'), ('-', '-')] c = true := by
  have key := plusLoop_charClass_reaches_end [('a', 'z'), ('A', 'Z'), ('0', '9'), ('-', '-')]
    q.rest q.atBegin (q.rest.length + 1) (Nat.le_succ _)
  have hcat : alphaNumDash.ends q =
      (if q.atBegin = true then [q] else []).flatMap fun q1 =>
        (plusLoop (Regexp.charClass [('a', 'z'), ('A', 'Z'), ('0', '9'), ('-', '-')]).ends
            (q1.rest.length + 1) q1).flatMap
          fun q2 => if q2.rest.isEmpty = true then [q2] else [] := rfl
  rw [hcat, ← key]
  cases hb : q.atBegin
  · simp
  · simp only [if_true, List.flatMap_cons, List.flatMap_nil, List.append_nil, true_and]
    rw [endText_after]
    cases q
    simp_all

theorem alphaNumDash_MatchString (s : String) :
    alphaNumDash.MatchString s = true ↔
      s.data ≠ [] ∧
        ∀ c ∈ s.data, inClass [('a', 'z'), ('A', 'Z'), ('0', '9'), ('-', '-')] c = true := by
  have hrest : ∀ l : List Char,
      (starts false l).any (fun q => !(alphaNumDash.ends q).isEmpty) = false := by
    intro l
    rw [List.any_eq_false]
    intro q hq
    have := starts_false_atBegin l q hq
    rw [alphaNumDash_ends]
    simp [this]
  unfold Regexp.MatchString
  cases hd : s.data with
  | nil =>
    simp only [starts, List.any_cons, List.any_nil, Bool.or_false, alphaNumDash_ends]
    simp
  | cons c cs =>
    simp only [starts, List.any_cons, hrest, Bool.or_false, alphaNumDash_ends]
    simp

/-- C10: `PersistentPreRunE` returns nil if and only if the namespace is not
empty and each of its characters is an ASCII letter, an ASCII digit or `-`;
otherwise it returns the error `<ns> is not a valid namespace`. The empty
string and "linkerd" followed by a newline are refused, the default
"linkerd" is accepted, and the returned error is the same for both values of
`verbose`. -/
theorem PersistentPreRunE_valid_namespace (verbose : Bool) (ns : String) :
    ((PersistentPreRunE verbose ns).2 = none ↔
      ns ≠ "" ∧ ∀ c ∈ ns.data, (c.isAlpha = true ∨ c.isDigit = true ∨ c = '-')) ∧
    ((PersistentPreRunE verbose ns).2 ≠ none →
      (PersistentPreRunE verbose ns).2 = some (ns ++ " is not a valid namespace")) ∧
    (PersistentPreRunE verbose "").2 = some " is not a valid namespace" ∧
    (PersistentPreRunE verbose "linkerd\n").2 = some "linkerd\n is not a valid namespace" ∧
    (PersistentPreRunE verbose defaultLinkerdNamespace).2 = none ∧
    (PersistentPreRunE true ns).2 = (PersistentPreRunE false ns).2 := by
  have hne : ns ≠ "" ↔ ns.data ≠ [] := by
    constructor
    · intro h hd
      exact h (String.ext hd)
    · rintro h rfl
      exact h rfl
  have hm := alphaNumDash_MatchString ns
  simp only [inClass_alphaNumDash] at hm
  refine ⟨?_, ?_, ?_, ?_, ?_, ?_⟩
  · rw [hne, ← hm]
    cases h : alphaNumDash.MatchString ns <;> simp [PersistentPreRunE, h]
  · cases h : alphaNumDash.MatchString ns <;> simp [PersistentPreRunE, h]
  · cases verbose <;> decide
  · cases verbose <;> decide
  · cases verbose <;> decide
  · cases h : alphaNumDash.MatchString ns <;> simp [PersistentPreRunE, h]

end Viz
